import Mathlib

/-!
Verification of the shortcake scene-graph engine (Python) against its
specification.  The Python modules `interpolate.py`, `size.py`, `enums.py`,
`utils.py` and `render.py` are shallowly embedded below:

* numeric values are modelled as `ℚ` (for the exact, decidable parts) and
  as `ℝ` (for the transcendental easing curves);
* `time.time()` becomes an explicit `now : ℚ` argument;
* in-place mutation becomes explicit state passing (a method that mutates
  its receiver returns the updated receiver);
* a Python exception (`ZeroDivisionError`, `AssertionError`, `ValueError`,
  `AttributeError`) becomes `Option`/`Except` `none`/`error` results.
-/

namespace Shortcake

/-! ## interpolate.py - exact (rational) part -/

/-- Embedding of `clamp(x, min_, max_)` from interpolate.py:
`max(min_, min(max_, x))`. -/
def clamp (x min_ max_ : ℚ) : ℚ := max min_ (min max_ x)

/-- Embedding of `lerp(a, b, t)` from interpolate.py: `t * (b - a) + a`. -/
def lerp (a b t : ℚ) : ℚ := t * (b - a) + a

/-- Python float modulo `n % p` for nonzero `p`: the result has the sign of
the divisor; `n % p = n - p * floor(n / p)`. -/
def pymod (n p : ℚ) : ℚ := n - p * ⌊n / p⌋

/-- Embedding of `oscillate(n, pause)` from interpolate.py.  The Python
function is recursive with no structural measure, so the embedding is
fuel-indexed: `none` models a raised `ZeroDivisionError` (when
`period = 2 * pause + 2` is zero, `n %= period` raises) or fuel exhaustion
(the Python recursion does not terminate for some negative `pause`).  For
the inputs of interest a fuel of 2 is shown below to be enough. -/
def oscillate : ℕ → ℚ → ℚ → Option ℚ
  | 0, _, _ => none
  | fuel + 1, n, pause =>
    let period := 2 * pause + 2
    if period = 0 then none
    else
      let n := pymod n period
      if n < pause then some 0
      else if n < pause + 1 then some (n - pause)
      else (oscillate fuel (n - period / 2) pause).map (fun r => 1 - r)

/-! ## size.py -/

/-- Embedding of the `Easing` dataclass from size.py.  The field `n` is the
origin of the easing (`origin` is a read-only property returning `n`).
The field `start` models the attribute created dynamically by
`ContinousEasingSequence.get` via `candidate.start = time.time()`; Python
dataclasses accept such an assignment, and no code ever reads it back. -/
structure Easing where
  n : ℚ
  target : ℚ
  period : ℚ
  start_time : ℚ
  easing : Option (ℚ → ℚ)
  interpolator : ℚ → ℚ → ℚ → ℚ
  clamp : Bool
  _is_expired : Bool
  start : Option ℚ

/-- Embedding of the `Easing.origin` property: returns `self.n`. -/
def Easing.origin (e : Easing) : ℚ := e.n

/-- Embedding of the `Easing.is_expired` property:
`self._is_expired = self._is_expired or time.time() >= (self.start_time + self.period)`,
then returns `self._is_expired`.  The property mutates the receiver, so the
embedding returns the value together with the updated receiver. -/
def Easing.is_expired (e : Easing) (now : ℚ) : Bool × Easing :=
  let b := e._is_expired || decide (e.start_time + e.period ≤ now)
  (b, { e with _is_expired := b })

/-- Embedding of `Easing.get_frac`:
`frac = (time.time() - self.start_time) / self.period`, clamped to `[0, 1]`
when `self.clamp`.  Python float division by a zero period raises
`ZeroDivisionError`, modelled as `none`. -/
def Easing.get_frac (e : Easing) (now : ℚ) : Option ℚ :=
  if e.period = 0 then none
  else
    let frac := (now - e.start_time) / e.period
    some (if e.clamp then min (max frac 0) 1 else frac)

/-- Embedding of `Easing.value_at_frac(frac)`: applies the optional easing
curve to `frac`, then `self.interpolator(self.origin, self.target, frac)`. -/
def Easing.value_at_frac (e : Easing) (frac : ℚ) : ℚ :=
  let frac := match e.easing with
    | some f => f frac
    | none => frac
  e.interpolator e.origin e.target frac

/-- Embedding of `Easing.get`: `self.value_at_frac(self.get_frac())`.
`none` models the `ZeroDivisionError` escaping from `get_frac`. -/
def Easing.get (e : Easing) (now : ℚ) : Option ℚ :=
  (e.get_frac now).map e.value_at_frac

/-- Embedding of the `ContinousEasingSequence` dataclass from size.py:
a fallback value `n` and a stack of easings.  The queue is stored top
first: the head of `queue` is Python's `self.queue[-1]`, and Python's
`self.queue.pop()` drops the head. -/
structure ContinousEasingSequence where
  n : ℚ
  queue : List Easing

/-- Loop body of `ContinousEasingSequence.get`, one recursive step per
iteration of the Python `while` loop.  The state `(n, queue)` mirrors
`self.n` and `self.queue`; `any_easings_expired` is the loop flag.  When
the flag is set, the source executes `candidate.start = time.time()` and
`candidate.n = self.n`: the first assignment creates a fresh `start`
attribute and leaves `candidate.start_time` unchanged.  The first
component of the result is the returned value (`none` models an escaping
`ZeroDivisionError`), the second the updated sequence state. -/
def ContinousEasingSequence.getAux (now : ℚ) :
    ℚ → List Easing → Bool → Option ℚ × ContinousEasingSequence
  | n, [], _ => (some n, ⟨n, []⟩)
  | n, candidate :: rest, any_easings_expired =>
    let candidate :=
      if any_easings_expired then
        { candidate with start := some now, n := n }
      else candidate
    let checked := candidate.is_expired now
    if checked.1 then
      let end_value := checked.2.value_at_frac 1
      ContinousEasingSequence.getAux now end_value rest true
    else
      (checked.2.get now, ⟨n, checked.2 :: rest⟩)

/-- Embedding of `ContinousEasingSequence.get`. -/
def ContinousEasingSequence.get (s : ContinousEasingSequence) (now : ℚ) :
    Option ℚ × ContinousEasingSequence :=
  ContinousEasingSequence.getAux now s.n s.queue false

/-- Embedding of the `Relative` dataclass from size.py. -/
structure Relative where
  n : ℚ

/-- Embedding of `Relative.get`: `self.n * parent_size`.  The unused Python
`parent` parameter is dropped. -/
def Relative.get (self : Relative) (parent_size : ℚ) : ℚ :=
  self.n * parent_size

/-- Embedding of the `Percentage` dataclass from size.py. -/
structure Percentage where
  n : ℚ

/-- Embedding of `Percentage.get`: `self.n * parent_size * 100`. -/
def Percentage.get (self : Percentage) (parent_size : ℚ) : ℚ :=
  self.n * parent_size * 100

/-- Embedding of the `Offset` dataclass from size.py. -/
structure Offset where
  n : ℚ

/-- Embedding of `Offset.get`: `self.n + parent_size`. -/
def Offset.get (self : Offset) (parent_size : ℚ) : ℚ :=
  self.n + parent_size

/-! ## enums.py -/

/-- Embedding of the `Direction` enum. -/
inductive Direction where
  | VERTICAL
  | HORIZONTAL
deriving DecidableEq

/-- Embedding of the `Packing` enum. -/
inductive Packing where
  | START
  | CENTER
  | END
  | NONE
deriving DecidableEq

/-- Embedding of the `Anchor` flag enum: a bit-set over
TOP, BOTTOM, LEFT, RIGHT. -/
structure Anchor where
  top : Bool
  bottom : Bool
  left : Bool
  right : Bool
deriving DecidableEq

/-- The `Anchor.TOP` member. -/
def Anchor.TOP : Anchor := ⟨true, false, false, false⟩

/-- The `Anchor.BOTTOM` member. -/
def Anchor.BOTTOM : Anchor := ⟨false, true, false, false⟩

/-- The `Anchor.LEFT` member. -/
def Anchor.LEFT : Anchor := ⟨false, false, true, false⟩

/-- The `Anchor.RIGHT` member. -/
def Anchor.RIGHT : Anchor := ⟨false, false, false, true⟩

/-- The `Anchor.CENTER` alias added after the class body: `Anchor(0)`,
the empty flag. -/
def Anchor.CENTER : Anchor := ⟨false, false, false, false⟩

/-- Flag intersection, Python `a & b`. -/
def Anchor.land (a b : Anchor) : Anchor :=
  ⟨a.top && b.top, a.bottom && b.bottom, a.left && b.left, a.right && b.right⟩

/-- Flag union, Python `a | b`. -/
def Anchor.lor (a b : Anchor) : Anchor :=
  ⟨a.top || b.top, a.bottom || b.bottom, a.left || b.left, a.right || b.right⟩

/-- Python truthiness of a flag value: true when any bit is set
(the empty flag is falsy). -/
def Anchor.truthy (a : Anchor) : Bool :=
  a.top || a.bottom || a.left || a.right

/-- Embedding of `Anchor.to_arr`.  The two `assert` statements read
`self.BOTTOM`, `self.TOP`, `self.LEFT`, `self.RIGHT`: attribute lookup on
the instance falls through to the class, so these denote the constant
members `Anchor.BOTTOM`, `Anchor.TOP`, ... and not bits of `self`.  A
failed assertion (`AssertionError`) is modelled as `none`.  The array
starts at `[0.5, 0.5]` and the four `if self & member:` updates follow in
source order (RIGHT, LEFT, BOTTOM, TOP). -/
def Anchor.to_arr (self : Anchor) : Option (ℚ × ℚ) :=
  if (Anchor.BOTTOM.land Anchor.TOP).truthy then none
  else if (Anchor.LEFT.land Anchor.RIGHT).truthy then none
  else
    let arr : ℚ × ℚ := (1/2, 1/2)
    let arr := if (self.land Anchor.RIGHT).truthy then (1, arr.2) else arr
    let arr := if (self.land Anchor.LEFT).truthy then (0, arr.2) else arr
    let arr := if (self.land Anchor.BOTTOM).truthy then (arr.1, 1) else arr
    let arr := if (self.land Anchor.TOP).truthy then (arr.1, 0) else arr
    some arr

/-! ## Two-component numpy vectors

Render-time geometry uses numpy arrays of length two; they are modelled as
pairs of rationals with pointwise arithmetic and positional indexing. -/

/-- Read component `i` of a 2-vector (`v[i]`, `i` is 0 or 1). -/
def vget (v : ℚ × ℚ) (i : ℕ) : ℚ := if i = 0 then v.1 else v.2

/-- Write component `i` of a 2-vector (`v[i] = x`). -/
def vset (v : ℚ × ℚ) (i : ℕ) (x : ℚ) : ℚ × ℚ :=
  if i = 0 then (x, v.2) else (v.1, x)

/-- Pointwise vector addition. -/
def vadd (a b : ℚ × ℚ) : ℚ × ℚ := (a.1 + b.1, a.2 + b.2)

/-- Pointwise vector subtraction. -/
def vsub (a b : ℚ × ℚ) : ℚ × ℚ := (a.1 - b.1, a.2 - b.2)

/-- Pointwise vector multiplication (numpy `a * b`). -/
def vmul (a b : ℚ × ℚ) : ℚ × ℚ := (a.1 * b.1, a.2 * b.2)

/-- Scale a vector by a rational (numpy `a * k` / `a / (1/k)`). -/
def vsmul (k : ℚ) (a : ℚ × ℚ) : ℚ × ℚ := (k * a.1, k * a.2)

/-! ## render.py - Container.render

The packing algorithm reads each child's `anchor`, `size` and `position`
through the resolving `__getattribute__`; the children modelled here carry
already-concrete attribute values (Size-valued attributes and their
resolution are modelled separately by `RNode.get` below). -/

/-- A child of a container, with concrete attribute values. -/
structure RChild where
  anchor : Anchor
  position : ℚ × ℚ
  size : ℚ × ℚ
deriving DecidableEq

/-- Embedding of the `Container` dataclass state used by `render`. -/
structure Container where
  anchor : Anchor
  position : ℚ × ℚ
  size : ℚ × ℚ
  direction : Direction
  packing : Packing
  children : List RChild
  spacing : ℚ

/-- Embedding of `Sized.get_top_left`:
`self.position - self.size * self.anchor.to_arr()`. -/
def Container.get_top_left (c : Container) : Option (ℚ × ℚ) :=
  (c.anchor.to_arr).map fun ta => vsub c.position (vmul c.size ta)

/-- The `new_anchor` dictionary lookup inside `Container.render`:
`{START: TOP, CENTER: CENTER, END: BOTTOM}` for a HORIZONTAL direction,
`{START: LEFT, CENTER: CENTER, END: RIGHT}` otherwise.  A `Packing.NONE`
key is absent from both dictionaries (`KeyError`, modelled `none`); render
only evaluates this in the packed branch. -/
def Container.new_anchor (c : Container) : Option Anchor :=
  if c.direction = Direction.HORIZONTAL then
    match c.packing with
    | Packing.START => some Anchor.TOP
    | Packing.CENTER => some Anchor.CENTER
    | Packing.END => some Anchor.BOTTOM
    | Packing.NONE => none
  else
    match c.packing with
    | Packing.START => some Anchor.LEFT
    | Packing.CENTER => some Anchor.CENTER
    | Packing.END => some Anchor.RIGHT
    | Packing.NONE => none

/-- The first loop of the packed branch of `Container.render`: walks the
children accumulating `rel_pos` and collecting `locations` entries
`(child, rel_tot)`.  A failed `to_arr` assertion would surface as `none`. -/
def packLoop (c : Container) (i i_0 : ℕ) :
    ℚ × ℚ → List RChild → Option (List (RChild × (ℚ × ℚ)))
  | _, [] => some []
  | rel_pos, child :: rest => do
    let anchor_array ← child.anchor.to_arr
    let anchor_array := vset anchor_array i 0
    let offset := vmul anchor_array c.size
    let n := vget anchor_array i_0 * 2 - 1
    let offset := vset offset i_0
      (vget offset i_0 - n * (c.spacing + vget child.size i_0 / 2))
    let rel_pos := vset rel_pos i (vget rel_pos i + c.spacing)
    let rel_tot := vadd rel_pos offset
    let rel_pos := vset rel_pos i (vget rel_pos i + vget child.size i + c.spacing)
    let rest2 ← packLoop c i i_0 rel_pos rest
    some ((child, rel_tot) :: rest2)

/-- The `Packing.CENTER` post-pass of `Container.render`: finds the placed
positions of the first and last child (by Python `==` value equality, first
match), computes the occupied `width`, and shifts every location by half
the leftover space with the cross component zeroed. -/
def centerAdjust (c : Container) (i_0 : ℕ)
    (locations : List (RChild × (ℚ × ℚ))) : Option (List (RChild × (ℚ × ℚ))) := do
  let first ← c.children.head?
  let lastc ← c.children.getLast?
  let p_first ← ((locations.filter fun cl => cl.1 == first).map fun cl => cl.2).head?
  let p_last ← ((locations.filter fun cl => cl.1 == lastc).map fun cl => cl.2).head?
  let width := vsub (vadd p_last lastc.size) p_first
  let avg_pos := vsmul (1/2) (vsub c.size width)
  let avg_pos := vset avg_pos i_0 0
  some (locations.map fun cl => (cl.1, vadd cl.2 avg_pos))

/-- The final loop of `Container.render`: for each `(child, loc)` the source
assigns `child.position = loc + self.get_top_left()`, saves `old_anchor`,
overwrites `child.anchor = new_anchor`, calls `child.render(ctx)` (which
observes the overwritten anchor), and restores `child.anchor = old_anchor`.
The result pairs the children after the loop with the anchor each render
call observed. -/
def renderLoop (topLeft : ℚ × ℚ) (new_anchor : Anchor) :
    List (RChild × (ℚ × ℚ)) → List RChild × List Anchor
  | [] => ([], [])
  | (child, loc) :: rest =>
    let child := { child with position := vadd loc topLeft }
    let old_anchor := child.anchor
    let child := { child with anchor := new_anchor }
    let rendered := child.anchor
    let child := { child with anchor := old_anchor }
    let r := renderLoop topLeft new_anchor rest
    (child :: r.1, rendered :: r.2)

/-- Embedding of `Container.render`.  In the `Packing.NONE` (or empty
children) branch every child renders in place with its own anchor.  The
packed branch computes locations, the synthesized `new_anchor`, the CENTER
and END post-passes, and runs the final loop.  The result pairs the
children after the call with the anchors observed by the child render
calls; `none` models an escaping exception. -/
def Container.render (c : Container) : Option (List RChild × List Anchor) :=
  if c.packing = Packing.NONE ∨ c.children = [] then
    some (c.children, c.children.map fun ch => ch.anchor)
  else
    let i : ℕ := if c.direction = Direction.HORIZONTAL then 1 else 0
    let i_0 : ℕ := 1 - i
    let rel_pos := vset (0, 0) i (vget (0, 0) i - c.spacing)
    do
      let locations ← packLoop c i i_0 rel_pos c.children
      let new_anchor ← c.new_anchor
      let locations ← if c.packing = Packing.CENTER then
          centerAdjust c i_0 locations
        else some locations
      let locations := if c.packing = Packing.END then
          locations.map fun cl => (cl.1, vsub c.size cl.2)
        else locations
      let topLeft ← c.get_top_left
      some (renderLoop topLeft new_anchor locations)

/-! ## utils.py / render.py - grid placement -/

/-- Embedding of `is_rectangular(nested)` from utils.py at the default
`dims = 2`: walks the row lengths and reports `False` on the first length
that differs from the previous one, which is equivalent to all lengths
equalling the first. -/
def is_rectangular {α : Type} (nested : List (List α)) : Bool :=
  match nested.map List.length with
  | [] => true
  | l :: ls => ls.all fun x => x == l

/-- A grid item as seen by `Container.make_grid`: whether
`item.parent = self` has been executed, and the `anchor_like` constant
captured by the `ParentFunction` closure assigned to `item.position`
(`none` when the position was never assigned). -/
structure GNode where
  parent : Bool
  position : Option (ℚ × ℚ)
deriving DecidableEq

/-- One inner-loop step of `make_grid`: `item.parent = self` executes
first; then `anchor_like = np.array([i / (rows - 1), j / (cols - 1)])`
raises `ZeroDivisionError` when `rows = 1` or `cols = 1` (the parent
assignment has already happened - the error carries the mutated item);
otherwise `anchor_like -= 0.5`, `anchor_like *= scale`, and the item's
position is assigned. -/
def make_grid_item (rows cols : ℕ) (scale : ℚ × ℚ) (i j : ℕ)
    (item : GNode) : Except GNode GNode :=
  let item := { item with parent := true }
  if rows = 1 ∨ cols = 1 then .error item
  else
    let anchor_like : ℚ × ℚ := ((i : ℚ) / ((rows : ℚ) - 1), (j : ℚ) / ((cols : ℚ) - 1))
    let anchor_like := (anchor_like.1 - 1/2, anchor_like.2 - 1/2)
    let anchor_like := vmul anchor_like scale
    .ok { item with position := some anchor_like }

/-- The inner loop of `make_grid` over one row, starting at column `j`.
On an exception the error carries the row with all mutations made so far. -/
def make_grid_row (rows cols : ℕ) (scale : ℚ × ℚ) (i : ℕ) :
    ℕ → List GNode → Except (List GNode) (List GNode)
  | _, [] => .ok []
  | j, item :: rest =>
    match make_grid_item rows cols scale i j item with
    | .error item2 => .error (item2 :: rest)
    | .ok item2 =>
      match make_grid_row rows cols scale i (j + 1) rest with
      | .error rest2 => .error (item2 :: rest2)
      | .ok rest2 => .ok (item2 :: rest2)

/-- The outer loop of `make_grid` over the rows, threading the container's
`children` list (`self.children += row` after each row).  The state is
`(children, items)`; on an exception the error carries the state with all
mutations made before the raise. -/
def make_grid_rows (rows cols : ℕ) (scale : ℚ × ℚ) :
    ℕ → List GNode → List (List GNode) →
    Except (List GNode × List (List GNode)) (List GNode × List (List GNode))
  | _, children, [] => .ok (children, [])
  | i, children, row :: rest =>
    match make_grid_row rows cols scale i 0 row with
    | .error row2 => .error (children, row2 :: rest)
    | .ok row2 =>
      match make_grid_rows rows cols scale (i + 1) (children ++ row2) rest with
      | .error st => .error (st.1, row2 :: st.2)
      | .ok st => .ok (st.1, row2 :: st.2)

/-- Embedding of `Container.make_grid(items, scale)`.  The first statement
is `assert items and is_rectangular(items), items`: a falsy (empty) items
list or a non-rectangular one raises `AssertionError` before anything else
runs, so the error carries the untouched state.  Then
`rows, cols = shape_of(items)` and the nested placement loops run.  The
container is represented by its `children` list. -/
def make_grid (children : List GNode) (items : List (List GNode))
    (scale : ℚ × ℚ) :
    Except (List GNode × List (List GNode)) (List GNode × List (List GNode)) :=
  if !(decide (items ≠ []) && is_rectangular items) then .error (children, items)
  else
    let rows := items.length
    let cols := (items.head?.map List.length).getD 0
    make_grid_rows rows cols scale 0 children items

/-! ## render.py - Renderable.get (attribute resolution) -/

/-- Embedding of the `Absolute` dataclass from size.py. -/
structure Absolute where
  n : ℚ

/-- Embedding of `Absolute.get`: returns `self.n` unchanged. -/
def Absolute.get (self : Absolute) : ℚ := self.n

/-- Embedding of the `TimeFunction` dataclass from size.py. -/
structure TimeFunction where
  n : ℚ → ℚ
  start_time : ℚ
  offset : ℚ

/-- Embedding of `TimeFunction.get`:
`dt = time.time() - self.start_time + self.offset; return self.n(dt)`. -/
def TimeFunction.get (self : TimeFunction) (now : ℚ) : ℚ :=
  self.n (now - self.start_time + self.offset)

/-- Embedding of the `ParentFunction` dataclass from size.py.  The Python
`n` receives `(parent_size, parent, *args, **kwargs)`; only the
`parent_size` dependency is observable by the claims, so `n` is modelled
as a function of the parent value. -/
structure ParentFunction where
  n : ℚ → ℚ

/-- Embedding of `ParentFunction.get`:
`self.n(parent_size, parent, *self.args, **self.kwargs)`. -/
def ParentFunction.get (self : ParentFunction) (parent_size : ℚ) : ℚ :=
  self.n parent_size

/-- The `Size` union: the class hierarchy rooted at `Size` in size.py, as
stored in a `Renderable` attribute. -/
inductive Size where
  | absolute (s : Absolute)
  | relative (s : Relative)
  | percentage (s : Percentage)
  | offset (s : Offset)
  | parentFunction (s : ParentFunction)
  | timeFunction (s : TimeFunction)
  | easing (e : Easing)
  | continousEasingSequence (s : ContinousEasingSequence)

/-- The dispatch test in `Renderable.get`:
`isinstance(gotten, (Relative, Percentage, ParentFunction, Offset))`. -/
def Size.requiresParent : Size → Bool
  | .relative _ => true
  | .percentage _ => true
  | .parentFunction _ => true
  | .offset _ => true
  | _ => false

/-- Evaluation of `gotten.get(parent.get(attr), parent)` for the
parent-requiring variants.  The other variants never reach this call in
`Renderable.get` (modelled `none`). -/
def Size.getWithParent (s : Size) (parent_size : ℚ) : Option ℚ :=
  match s with
  | .relative r => some (r.get parent_size)
  | .percentage p => some (p.get parent_size)
  | .parentFunction f => some (f.get parent_size)
  | .offset o => some (o.get parent_size)
  | _ => none

/-- Evaluation of `gotten.get()` (no arguments) for the variants that do
not require a parent.  For `Easing` and `ContinousEasingSequence`, `none`
models the `ZeroDivisionError` of a zero easing period; the in-place state
update of the easing sequence is modelled by
`ContinousEasingSequence.get` and is not observable through the returned
value.  The parent-requiring variants never reach this call (`none`). -/
def Size.getNoParent (s : Size) (now : ℚ) : Option ℚ :=
  match s with
  | .absolute a => some a.get
  | .timeFunction tf => some (tf.get now)
  | .easing e => e.get now
  | .continousEasingSequence q => (q.get now).1
  | _ => none

/-- A stored attribute value on a `Renderable`: either a plain (non-Size)
value, returned verbatim, or a `Size`. -/
inductive Attr where
  | plain (v : ℚ)
  | size (s : Size)

/-- A `Renderable` as seen by `Renderable.get`: an attribute dictionary
and an optional parent. -/
inductive RNode where
  | mk (attrs : List (String × Attr)) (parent : Option RNode)

/-- Raw attribute lookup, `object.__getattribute__(self, attr)`:
`none` models a raised `AttributeError`. -/
def lookupAttr (attrs : List (String × Attr)) (name : String) : Option Attr :=
  (attrs.find? fun p => p.1 == name).map fun p => p.2

/-- The exceptions observable through `Renderable.get`. -/
inductive GetErr where
  | attributeError
  | valueError
  | zeroDivisionError
deriving DecidableEq

/-- Embedding of `Renderable.get(attr)` (with the default `unwrap=True`).
The source reads the raw attribute (`AttributeError` when absent), returns
non-`Size` values verbatim, and for a `Size`:
if `isinstance(gotten, (Relative, Percentage, ParentFunction, Offset))`,
it raises `ValueError` when `parent is None or not hasattr(parent, attr)`
and otherwise returns `gotten.get(parent.get(attr), parent)`; all other
`Size` variants take `return gotten.get()` without consulting the parent.
`hasattr` resolves the attribute through the parent, converting only an
`AttributeError` into `False`; any other exception escapes. -/
def RNode.get (node : RNode) (attr : String) (now : ℚ) : Except GetErr ℚ :=
  match node with
  | .mk attrs parent =>
    match lookupAttr attrs attr with
    | none => .error .attributeError
    | some (.plain v) => .ok v
    | some (.size gotten) =>
      if gotten.requiresParent then
        match parent with
        | none => .error .valueError
        | some p =>
          match p.get attr now with
          | .error .attributeError => .error .valueError
          | .error e => .error e
          | .ok parent_value =>
            match gotten.getWithParent parent_value with
            | some v => .ok v
            | none => .error .valueError
      else
        match gotten.getNoParent now with
        | some v => .ok v
        | none => .error .zeroDivisionError

/-! ## interpolate.py - easing curves (lines 84 to 314)

The curve bodies use `math.sin`, `math.cos`, `math.sqrt` and float `pow`,
so they are embedded over `ℝ` (`Real.sin`, `Real.cos`, `Real.sqrt`, and
`Real.rpow` for a real exponent; integer exponents use the monoid power).
Every function begins with the prologue `x = max(min(x, 1), 0)`, written
here as `clamp01`. -/

noncomputable section

/-- The clamping prologue `max(min(x, 1), 0)` shared by the easing
functions of interpolate.py. -/
def clamp01 (x : ℝ) : ℝ := max (min x 1) 0

/-- Constant `_C1 = 1.70158`. -/
def _C1 : ℝ := 1.70158

/-- Constant `_C2 = _C1 * 1.525`. -/
def _C2 : ℝ := _C1 * 1.525

/-- Constant `_C3 = _C1 + 1`. -/
def _C3 : ℝ := _C1 + 1

/-- Constant `_C4 = (2 * math.pi) / 3`. -/
def _C4 : ℝ := (2 * Real.pi) / 3

/-- Constant `_C5 = (2 * math.pi) / 4.5`. -/
def _C5 : ℝ := (2 * Real.pi) / 4.5

/-- Embedding of the helper `_bounce_out(x)`. -/
def _bounce_out (x : ℝ) : ℝ :=
  let x := clamp01 x
  let n1 : ℝ := 7.5625
  let d1 : ℝ := 2.75
  if x < 1 / d1 then n1 * x * x
  else if x < 2 / d1 then n1 * (x - 1.5 / d1) * x + 0.75
  else if x < 2.5 / d1 then n1 * (x - 2.25 / d1) * x + 0.9375
  else n1 * (x - 2.625 / d1) * x + 0.984375

/-- Embedding of `linear(x)`. -/
def linear (x : ℝ) : ℝ :=
  let x := clamp01 x
  x

/-- Embedding of `in_quad(x)`. -/
def in_quad (x : ℝ) : ℝ :=
  let x := clamp01 x
  x * x

/-- Embedding of `out_quad(x)`. -/
def out_quad (x : ℝ) : ℝ :=
  let x := clamp01 x
  1 - (1 - x) * (1 - x)

/-- Embedding of `in_out_quad(x)`. -/
def in_out_quad (x : ℝ) : ℝ :=
  let x := clamp01 x
  if x < 0.5 then 2 * x * x else 1 - (-2 * x + 2) ^ 2 / 2

/-- Embedding of `in_cubic(x)`. -/
def in_cubic (x : ℝ) : ℝ :=
  let x := clamp01 x
  x ^ 3

/-- Embedding of `out_cubic(x)`. -/
def out_cubic (x : ℝ) : ℝ :=
  let x := clamp01 x
  1 - (1 - x) ^ 3

/-- Embedding of `in_out_cubic(x)`. -/
def in_out_cubic (x : ℝ) : ℝ :=
  let x := clamp01 x
  if x < 0.5 then 4 * x ^ 3 else 1 - (-2 * x + 2) ^ 3 / 2

/-- Embedding of `in_quart(x)`. -/
def in_quart (x : ℝ) : ℝ :=
  let x := clamp01 x
  x ^ 4

/-- Embedding of `out_quart(x)`. -/
def out_quart (x : ℝ) : ℝ :=
  let x := clamp01 x
  1 - (1 - x) ^ 4

/-- Embedding of `in_out_quart(x)`. -/
def in_out_quart (x : ℝ) : ℝ :=
  let x := clamp01 x
  if x < 0.5 then 8 * x ^ 4 else 1 - (-2 * x + 2) ^ 4 / 2

/-- Embedding of `in_quint(x)`. -/
def in_quint (x : ℝ) : ℝ :=
  let x := clamp01 x
  x ^ 5

/-- Embedding of `out_quint(x)`. -/
def out_quint (x : ℝ) : ℝ :=
  let x := clamp01 x
  1 - (1 - x) ^ 5

/-- Embedding of `in_out_quint(x)`. -/
def in_out_quint (x : ℝ) : ℝ :=
  let x := clamp01 x
  if x < 0.5 then 16 * x ^ 5 else 1 - (-2 * x + 2) ^ 5 / 2

/-- Embedding of `in_sine(x)`. -/
def in_sine (x : ℝ) : ℝ :=
  let x := clamp01 x
  if x = 0 then 0
  else if x = 1 then 1
  else 1 - Real.cos (x * Real.pi / 2)

/-- Embedding of `out_sine(x)`. -/
def out_sine (x : ℝ) : ℝ :=
  let x := clamp01 x
  if x = 0 then 0
  else if x = 1 then 1
  else Real.sin (x * Real.pi / 2)

/-- Embedding of `in_out_sine(x)`. -/
def in_out_sine (x : ℝ) : ℝ :=
  let x := clamp01 x
  if x = 0 then 0
  else if x = 1 then 1
  else -(Real.cos (Real.pi * x) - 1) / 2

/-- Embedding of `in_expo(x)`. -/
def in_expo (x : ℝ) : ℝ :=
  let x := clamp01 x
  if x = 0 then 0 else (2 : ℝ) ^ (10 * x - 10)

/-- Embedding of `out_expo(x)`. -/
def out_expo (x : ℝ) : ℝ :=
  let x := clamp01 x
  if x = 1 then 1 else 1 - (2 : ℝ) ^ (-10 * x)

/-- Embedding of `in_out_expo(x)`. -/
def in_out_expo (x : ℝ) : ℝ :=
  let x := clamp01 x
  if x = 0 then 0
  else if x = 1 then 1
  else if x < 0.5 then (2 : ℝ) ^ (20 * x - 10) / 2
  else (2 - (2 : ℝ) ^ (-20 * x + 10)) / 2

/-- Embedding of `in_circ(x)`. -/
def in_circ (x : ℝ) : ℝ :=
  let x := clamp01 x
  if x = 0 then 0
  else if x = 1 then 1
  else 1 - Real.sqrt (1 - x ^ 2)

/-- Embedding of `out_circ(x)`. -/
def out_circ (x : ℝ) : ℝ :=
  let x := clamp01 x
  Real.sqrt (1 - (x - 1) ^ 2)

/-- Embedding of `in_out_circ(x)`. -/
def in_out_circ (x : ℝ) : ℝ :=
  let x := clamp01 x
  if x = 0 then 0
  else if x = 1 then 1
  else if x < 0.5 then (1 - Real.sqrt (1 - (2 * x) ^ 2)) / 2
  else (Real.sqrt (1 - (-2 * x + 2) ^ 2) + 1) / 2

/-- Embedding of `in_back(x)`. -/
def in_back (x : ℝ) : ℝ :=
  let x := clamp01 x
  if x = 0 then 0
  else if x = 1 then 1
  else _C3 * x ^ 3 - _C1 * x ^ 2

/-- Embedding of `out_back(x)`. -/
def out_back (x : ℝ) : ℝ :=
  let x := clamp01 x
  if x = 0 then 0
  else if x = 1 then 1
  else 1 + _C3 * (x - 1) ^ 3 + _C1 * (x - 1) ^ 2

/-- Embedding of `in_out_back(x)`. -/
def in_out_back (x : ℝ) : ℝ :=
  let x := clamp01 x
  if x = 0 then 0
  else if x = 1 then 1
  else if x < 0.5 then ((2 * x) ^ 2 * ((_C2 + 1) * 2 * x - _C2)) / 2
  else ((2 * x - 2) ^ 2 * ((_C2 + 1) * (x * 2 - 2) + _C2) + 2) / 2

/-- Embedding of `in_elastic(x)`. -/
def in_elastic (x : ℝ) : ℝ :=
  let x := clamp01 x
  if x = 0 then 0
  else if x = 1 then 1
  else -(2 : ℝ) ^ (10 * x - 10) * Real.sin ((x * 10 - 10.75) * _C4)

/-- Embedding of `out_elastic(x)`. -/
def out_elastic (x : ℝ) : ℝ :=
  let x := clamp01 x
  if x = 0 then 0
  else if x = 1 then 1
  else (2 : ℝ) ^ (-10 * x) * Real.sin ((x * 10 - 0.75) * _C4) + 1

/-- Embedding of `in_out_elastic(x)`. -/
def in_out_elastic (x : ℝ) : ℝ :=
  let x := clamp01 x
  if x = 0 then 0
  else if x = 1 then 1
  else if x < 0.5 then
    -((2 : ℝ) ^ (20 * x - 10) * Real.sin ((20 * x - 11.125) * _C5)) / 2
  else (2 : ℝ) ^ (-20 * x + 10) * Real.sin ((20 * x - 11.125) * _C5) / 2 + 1

/-- Embedding of `in_bounce(x)`. -/
def in_bounce (x : ℝ) : ℝ :=
  let x := clamp01 x
  if x = 0 then 0
  else if x = 1 then 1
  else 1 - _bounce_out (1 - x)

/-- Embedding of `out_bounce(x)`. -/
def out_bounce (x : ℝ) : ℝ :=
  let x := clamp01 x
  if x = 0 then 0
  else if x = 1 then 1
  else if x < 0.5 then (1 - _bounce_out (1 - 2 * x)) / 2
  else (1 + _bounce_out (2 * x - 1)) / 2

/-- Embedding of `in_out_bounce(x)`. -/
def in_out_bounce (x : ℝ) : ℝ :=
  let x := clamp01 x
  if x = 0 then 0
  else if x = 1 then 1
  else if x < 0.5 then (1 - out_bounce (1 - 2 * x)) / 2
  else (1 + out_bounce (2 * x - 1)) / 2

/-- The easing curve functions defined in interpolate.py lines 84 to 314,
in source order. -/
def allEasingCurves : List (ℝ → ℝ) :=
  [linear,
   in_quad, out_quad, in_out_quad,
   in_cubic, out_cubic, in_out_cubic,
   in_quart, out_quart, in_out_quart,
   in_quint, out_quint, in_out_quint,
   in_sine, out_sine, in_out_sine,
   in_expo, out_expo, in_out_expo,
   in_circ, out_circ, in_out_circ,
   in_back, out_back, in_out_back,
   in_elastic, out_elastic, in_out_elastic,
   in_bounce, out_bounce, in_out_bounce]

end

/-! ## Concrete fixtures used by the theorems below -/

/-- An easing from 0 to 10 over one second, started at time 0, with the
default curve (`None`), interpolator (`lerp`) and clamping. -/
def easeA : Easing :=
  { n := 0, target := 10, period := 1, start_time := 0, easing := none,
    interpolator := lerp, clamp := true, _is_expired := false, start := none }

/-- An easing from 99 to 20 over one second, started at time 0. -/
def easeB : Easing :=
  { n := 99, target := 20, period := 1, start_time := 0, easing := none,
    interpolator := lerp, clamp := true, _is_expired := false, start := none }

/-- A two-entry easing sequence: `easeA` on top of the stack, `easeB`
beneath it, fallback 0. -/
def seqAB : ContinousEasingSequence := ⟨0, [easeA, easeB]⟩

/-- An easing with a degenerate `period = 0`. -/
def easeZero : Easing :=
  { n := 0, target := 10, period := 0, start_time := 0, easing := none,
    interpolator := lerp, clamp := true, _is_expired := false, start := none }

/-- An easing with a negative `period = -1`. -/
def easeNeg : Easing :=
  { n := 0, target := 10, period := -1, start_time := 0, easing := none,
    interpolator := lerp, clamp := true, _is_expired := false, start := none }

/-- A one-child horizontal container packed at START. -/
def packedContainer : Container :=
  { anchor := Anchor.CENTER, position := (0, 0), size := (100, 50),
    direction := Direction.HORIZONTAL, packing := Packing.START,
    children := [⟨Anchor.CENTER, (0, 0), (10, 10)⟩], spacing := 5 }

/-! # Theorems -/

/-- C7: resolving `Relative(0.5)` against parent value 200 gives 100,
`Percentage(0.5)` against 200 gives 10000, `Offset(5)` against 10 gives
15; in general the three variants compute `n * parentValue`,
`n * parentValue * 100` and `n + parentValue`. -/
theorem c7_fraction_variant_resolution :
    (Relative.mk (1/2)).get 200 = 100 ∧
    (Percentage.mk (1/2)).get 200 = 10000 ∧
    (Offset.mk 5).get 10 = 15 ∧
    (∀ n parent_size : ℚ, (Relative.mk n).get parent_size = n * parent_size) ∧
    (∀ n parent_size : ℚ, (Percentage.mk n).get parent_size = n * parent_size * 100) ∧
    (∀ n parent_size : ℚ, (Offset.mk n).get parent_size = n + parent_size) :=
  ⟨by norm_num [Relative.get], by norm_num [Percentage.get],
   by norm_num [Offset.get],
   fun _ _ => rfl, fun _ _ => rfl, fun _ _ => rfl⟩

/-- C2 (code bug): resolving an `Easing` with `period = 0` hits the float
division `(time.time() - self.start_time) / self.period` and raises
`ZeroDivisionError` (modelled `none`) instead of yielding fraction 1; with
`period = -1` at a later time the clamped fraction is 0, not 1.  The code
does not treat `period <= 0` as instantaneously expired. -/
theorem c2_degenerate_period_division_fault :
    easeZero.get_frac 1 = none ∧ easeNeg.get_frac 1 = some 0 := by
  constructor <;> norm_num [Easing.get_frac, easeZero, easeNeg]

/-- C1 (code bug): at the hand-off of `seqAB` (entry `easeA` expires at
time 1 with final value 10) the resolved value jumps.  Just before expiry
(`now = 99/100`) the value is 9.9; just after (`now = 101/100`) the pop of
`easeA` rebases the next entry's origin `n` but writes the fresh attribute
`start` instead of `start_time`, so `easeB` is itself already expired and
is popped too: the call returns 20 (its target) with an emptied queue,
not a value near 10. -/
theorem c1_handoff_discontinuity :
    (seqAB.get (99/100)).1 = some (99/10) ∧
    easeA.value_at_frac 1 = 10 ∧
    (seqAB.get (101/100)).1 = some 20 ∧
    (seqAB.get (101/100)).2.queue.isEmpty = true := by
  refine ⟨?_, ?_, ?_, ?_⟩ <;>
  norm_num [ContinousEasingSequence.get, ContinousEasingSequence.getAux, seqAB,
    Easing.is_expired, Easing.get, Easing.get_frac, Easing.value_at_frac,
    Easing.origin, easeA, easeB, lerp]

/-- C10: expiry of an `Easing` is latched: once `is_expired` has returned
true, every later call returns true, even after `start_time` and `period`
are overwritten so that the time-based condition fails. -/
theorem c10_expiry_latched (e : Easing) (now1 : ℚ)
    (h : (e.is_expired now1).1 = true) :
    ∀ st p now2 : ℚ,
      (({ (e.is_expired now1).2 with start_time := st, period := p }).is_expired now2).1
        = true := by
  intro st p now2
  have hb : (({ (e.is_expired now1).2 with start_time := st, period := p }).is_expired now2).1
      = ((e.is_expired now1).1 || decide (st + p ≤ now2)) := rfl
  rw [hb, h, Bool.true_or]

/-- Witness for C10 at a concrete expired easing. -/
theorem c10_expiry_latched_witness :
    (easeA.is_expired 2).1 = true ∧
    (({ (easeA.is_expired 2).2 with start_time := 100, period := 100 }).is_expired 0).1
      = true :=
  ⟨by norm_num [Easing.is_expired, easeA],
   c10_expiry_latched easeA 2 (by norm_num [Easing.is_expired, easeA]) 100 100 0⟩

/-- C3 (code bug): `Anchor.to_arr` never fails, because its asserts test
the constant members (`Anchor.BOTTOM & Anchor.TOP`, always empty) rather
than the bits of `self`.  An anchor with both TOP and BOTTOM set converts
without an assertion failure, to `(0.5, 0)` (the TOP branch runs last);
more generally `to_arr` succeeds on every anchor value. -/
theorem c3_anchor_exclusivity_not_asserted :
    Anchor.to_arr (Anchor.TOP.lor Anchor.BOTTOM) = some (1/2, 0) ∧
    ∀ a : Anchor, (Anchor.to_arr a).isSome = true := by
  constructor
  · simp [Anchor.to_arr, Anchor.lor, Anchor.land, Anchor.truthy, Anchor.BOTTOM,
      Anchor.TOP, Anchor.LEFT, Anchor.RIGHT]
  · intro a
    simp [Anchor.to_arr, Anchor.land, Anchor.truthy, Anchor.BOTTOM, Anchor.TOP,
      Anchor.LEFT, Anchor.RIGHT]

/-- C9: `make_grid` on a non-rectangular 2-D list fails at the leading
assert, before any item's parent or position is assigned and before the
child list changes: the error state equals the input state. -/
theorem c9_nonrectangular_grid_fails_before_mutation :
    ∀ (children : List GNode) (items : List (List GNode)) (scale : ℚ × ℚ),
      is_rectangular items = false →
      make_grid children items scale = .error (children, items) := by
  intro children items scale h
  unfold make_grid
  rw [h]
  simp

/-- Witness for C9 on a concrete ragged grid. -/
theorem c9_nonrectangular_grid_witness :
    is_rectangular [[(⟨false, none⟩ : GNode)], [⟨false, none⟩, ⟨false, none⟩]] = false ∧
    make_grid [] [[(⟨false, none⟩ : GNode)], [⟨false, none⟩, ⟨false, none⟩]] (1, 1)
      = .error ([], [[⟨false, none⟩], [⟨false, none⟩, ⟨false, none⟩]]) :=
  ⟨by decide,
   c9_nonrectangular_grid_fails_before_mutation _ _ _ (by decide)⟩

/-- Unfolding lemma for one step of `oscillate`. -/
theorem oscillate_succ (fuel : ℕ) (n pause : ℚ) :
    oscillate (fuel + 1) n pause =
      if 2 * pause + 2 = 0 then none
      else
        if pymod n (2 * pause + 2) < pause then some 0
        else if pymod n (2 * pause + 2) < pause + 1 then
          some (pymod n (2 * pause + 2) - pause)
        else (oscillate fuel (pymod n (2 * pause + 2) - (2 * pause + 2) / 2) pause).map
          fun r => 1 - r := rfl

/-- C6 counterexample: at `pause = -1` the period `2 * pause + 2` is zero
and `n %= period` raises `ZeroDivisionError` (modelled `none`), so
`oscillate(pause, pause) = 0` fails there. -/
theorem c6_oscillate_counterexample :
    oscillate 10 (-1 : ℚ) (-1) ≠ some 0 := by
  have h : oscillate 10 (-1 : ℚ) (-1) = none :=
    (oscillate_succ 9 (-1 : ℚ) (-1)).trans (by norm_num)
  simp [h]

/-- Python modulo is invariant under adding the (nonzero) divisor. -/
theorem pymod_add_self (n : ℚ) {p : ℚ} (hp : p ≠ 0) :
    pymod (n + p) p = pymod n p := by
  unfold pymod
  have h : (n + p) / p = n / p + 1 := by field_simp
  rw [h, Int.floor_add_one]
  push_cast
  ring

/-- Python modulo is the identity on `[0, p)`. -/
theorem pymod_eq_self {n p : ℚ} (h0 : 0 ≤ n) (h1 : n < p) : pymod n p = n := by
  unfold pymod
  have hp : 0 < p := lt_of_le_of_lt h0 h1
  have hf : ⌊n / p⌋ = 0 := by
    rw [Int.floor_eq_zero_iff]
    exact ⟨div_nonneg h0 hp.le, (div_lt_one hp).mpr h1⟩
  rw [hf]
  simp

/-- Python modulo of zero. -/
theorem pymod_zero_left (p : ℚ) : pymod 0 p = 0 := by
  unfold pymod
  simp

/-- C6 (amended): for every `n` and every `pause >= 0`, and any fuel large
enough for the bounded recursion (2 suffices), `oscillate` is periodic
with period `2 * pause + 2`, `oscillate(pause, pause) = 0`, and
`oscillate(pause + 1, pause) = 1`. -/
theorem c6_oscillate_amended (n pause : ℚ) (fuel : ℕ)
    (hpause : 0 ≤ pause) (hfuel : 2 ≤ fuel) :
    oscillate fuel (n + (2 * pause + 2)) pause = oscillate fuel n pause ∧
    oscillate fuel pause pause = some 0 ∧
    oscillate fuel (pause + 1) pause = some 1 := by
  obtain ⟨k, rfl⟩ : ∃ k, fuel = k + 1 + 1 := ⟨fuel - 2, by omega⟩
  have hper0 : 0 < 2 * pause + 2 := by linarith
  have hper : (2 * pause + 2) ≠ 0 := ne_of_gt hper0
  refine ⟨?_, ?_, ?_⟩
  · conv_lhs => rw [oscillate_succ]
    conv_rhs => rw [oscillate_succ]
    rw [pymod_add_self n hper]
  · rw [oscillate_succ, if_neg hper, pymod_eq_self hpause (by linarith)]
    rw [if_neg (lt_irrefl pause), if_pos (lt_add_one pause)]
    simp
  · rw [oscillate_succ, if_neg hper,
      pymod_eq_self (by linarith) (by linarith)]
    rw [if_neg (by linarith : ¬ pause + 1 < pause), if_neg (lt_irrefl (pause + 1))]
    have h0 : pause + 1 - (2 * pause + 2) / 2 = 0 := by ring
    rw [h0, oscillate_succ, if_neg hper, pymod_zero_left]
    rcases eq_or_lt_of_le hpause with rfl | h
    · norm_num
    · rw [if_pos h]
      simp

/-- Witness for the amended C6 at `pause = 0`, `n = 5`, fuel 2. -/
theorem c6_oscillate_amended_witness :
    (0:ℚ) ≤ 0 ∧ 2 ≤ 2 ∧
    (oscillate 2 (5 + (2 * 0 + 2)) 0 = oscillate 2 5 0 ∧
     oscillate 2 (0:ℚ) 0 = some 0 ∧
     oscillate 2 ((0:ℚ) + 1) 0 = some 1) :=
  ⟨le_rfl, le_rfl, c6_oscillate_amended 5 0 2 le_rfl le_rfl⟩

/-- An easing with a nonzero period always yields a fraction and a value. -/
theorem Easing.get_isSome {e : Easing} (h : e.period ≠ 0) (now : ℚ) :
    ∃ v, e.get now = some v := by
  have hf : e.get_frac now = some (if e.clamp then
      min (max ((now - e.start_time) / e.period) 0) 1
    else (now - e.start_time) / e.period) := by
    unfold Easing.get_frac
    rw [if_neg h]
  unfold Easing.get
  rw [hf]
  exact ⟨_, rfl⟩

/-- Unfolding lemma for one loop iteration of
`ContinousEasingSequence.getAux`. -/
theorem getAux_cons (now n : ℚ) (cand : Easing) (rest : List Easing) (b : Bool) :
    ContinousEasingSequence.getAux now n (cand :: rest) b =
      (let cand2 := if b then { cand with start := some now, n := n } else cand
       if (cand2.is_expired now).1 then
         ContinousEasingSequence.getAux now
           ((cand2.is_expired now).2.value_at_frac 1) rest true
       else ((cand2.is_expired now).2.get now, ⟨n, (cand2.is_expired now).2 :: rest⟩)) := rfl

/-- An easing sequence whose queue has no zero-period entry resolves to a
value (no division fault, no parent needed). -/
theorem getAux_fst_isSome (now : ℚ) (queue : List Easing) :
    ∀ (n : ℚ) (b : Bool), (∀ e ∈ queue, e.period ≠ 0) →
    ∃ v, (ContinousEasingSequence.getAux now n queue b).1 = some v := by
  induction queue with
  | nil => exact fun n b _ => ⟨n, rfl⟩
  | cons cand rest ih =>
    intro n b hall
    rw [getAux_cons]
    set cand2 := if b then { cand with start := some now, n := n } else cand with hc2
    have hp2 : cand2.period = cand.period := by
      rw [hc2]; cases b <;> rfl
    by_cases hexp : (cand2.is_expired now).1
    · rw [if_pos hexp]
      exact ih _ true fun e he => hall e (List.mem_cons_of_mem _ he)
    · rw [if_neg hexp]
      have hp3 : (cand2.is_expired now).2.period ≠ 0 := by
        show cand2.period ≠ 0
        rw [hp2]
        exact hall cand (List.mem_cons_self _ _)
      obtain ⟨v, hv⟩ := Easing.get_isSome hp3 now
      exact ⟨v, hv⟩

/-- C4 counterexample: an attribute holding an `Easing` (a variant that is
neither Constant/`Absolute` nor TimeDerived/`TimeFunction`) resolves
successfully on a node with no parent - the isinstance tuple in
`Renderable.get` only guards `Relative, Percentage, ParentFunction,
Offset`, so no `MissingParentError` is raised. -/
theorem c4_easing_without_parent_resolves :
    RNode.get (RNode.mk [("position", Attr.size (Size.easing easeA))] none)
      "position" 0 = Except.ok 0 := by
  norm_num [RNode.get, lookupAttr, Size.requiresParent, Size.getNoParent,
    Easing.get, Easing.get_frac, Easing.value_at_frac, Easing.origin, easeA, lerp]

/-- C4 (amended): exactly the variants `Relative`, `Percentage`,
`ParentFunction` and `Offset` (`requiresParent`) raise `ValueError`
(`MissingParentError`) when the node has no parent or the parent lacks the
attribute; `Absolute` and `TimeFunction` resolve without a parent, and so
do `Easing` and `ContinousEasingSequence` provided their periods are
nonzero (the zero-period division fault is claim C2's concern). -/
theorem c4_parent_requirement_amended :
    (∀ (attrs : List (String × Attr)) (attr : String) (now : ℚ) (s : Size),
      lookupAttr attrs attr = some (Attr.size s) → s.requiresParent = true →
      RNode.get (RNode.mk attrs none) attr now = Except.error GetErr.valueError) ∧
    (∀ (attrs pattrs : List (String × Attr)) (attr : String) (now : ℚ) (s : Size)
        (pp : Option RNode),
      lookupAttr attrs attr = some (Attr.size s) → s.requiresParent = true →
      lookupAttr pattrs attr = none →
      RNode.get (RNode.mk attrs (some (RNode.mk pattrs pp))) attr now
        = Except.error GetErr.valueError) ∧
    (∀ (attrs : List (String × Attr)) (attr : String) (now : ℚ) (a : Absolute),
      lookupAttr attrs attr = some (Attr.size (Size.absolute a)) →
      RNode.get (RNode.mk attrs none) attr now = Except.ok a.n) ∧
    (∀ (attrs : List (String × Attr)) (attr : String) (now : ℚ) (tf : TimeFunction),
      lookupAttr attrs attr = some (Attr.size (Size.timeFunction tf)) →
      RNode.get (RNode.mk attrs none) attr now = Except.ok (tf.get now)) ∧
    (∀ (attrs : List (String × Attr)) (attr : String) (now : ℚ) (e : Easing),
      lookupAttr attrs attr = some (Attr.size (Size.easing e)) → e.period ≠ 0 →
      ∃ v, RNode.get (RNode.mk attrs none) attr now = Except.ok v) ∧
    (∀ (attrs : List (String × Attr)) (attr : String) (now : ℚ)
        (q : ContinousEasingSequence),
      lookupAttr attrs attr = some (Attr.size (Size.continousEasingSequence q)) →
      (∀ e ∈ q.queue, e.period ≠ 0) →
      ∃ v, RNode.get (RNode.mk attrs none) attr now = Except.ok v) := by
  refine ⟨?_, ?_, ?_, ?_, ?_, ?_⟩
  · intro attrs attr now s hl hreq
    simp [RNode.get, hl, hreq]
  · intro attrs pattrs attr now s pp hl hreq hpl
    simp [RNode.get, hl, hreq, hpl]
  · intro attrs attr now a hl
    simp [RNode.get, hl, Size.requiresParent, Size.getNoParent, Absolute.get]
  · intro attrs attr now tf hl
    simp [RNode.get, hl, Size.requiresParent, Size.getNoParent]
  · intro attrs attr now e hl hp
    obtain ⟨v, hv⟩ := Easing.get_isSome hp now
    refine ⟨v, ?_⟩
    simp [RNode.get, hl, Size.requiresParent, Size.getNoParent, hv]
  · intro attrs attr now q hl hall
    obtain ⟨v, hv⟩ := getAux_fst_isSome now q.queue q.n false hall
    refine ⟨v, ?_⟩
    simp [RNode.get, hl, Size.requiresParent, Size.getNoParent,
      ContinousEasingSequence.get, hv]

/-- Witness for the amended C4: a `Relative` size with no parent raises. -/
theorem c4_parent_requirement_witness :
    lookupAttr [("size", Attr.size (Size.relative ⟨1⟩))] "size"
      = some (Attr.size (Size.relative ⟨1⟩)) ∧
    (Size.relative ⟨1⟩).requiresParent = true ∧
    RNode.get (RNode.mk [("size", Attr.size (Size.relative ⟨1⟩))] none) "size" 0
      = Except.error GetErr.valueError :=
  ⟨rfl, rfl, c4_parent_requirement_amended.1 _ "size" 0 _ rfl rfl⟩

/-- The clamping prologue vanishes left of zero. -/
theorem clamp01_of_nonpos {x : ℝ} (h : x ≤ 0) : clamp01 x = 0 := by
  unfold clamp01
  exact max_eq_right (le_trans (min_le_left x 1) h)

/-- The clamping prologue saturates right of one. -/
theorem clamp01_of_one_le {x : ℝ} (h : 1 ≤ x) : clamp01 x = 1 := by
  unfold clamp01
  rw [min_eq_right h]
  exact max_eq_left zero_le_one

/-- Boundary behaviour of `linear`: constantly 0 left of 0 and constantly 1
right of 1 (the input is clamped first). -/
theorem linear_bdry (x : ℝ) : (x ≤ 0 → linear x = 0) ∧ (1 ≤ x → linear x = 1) := by
  constructor <;> intro h
  · norm_num [linear, clamp01_of_nonpos h, Real.rpow_zero, Real.sqrt_zero, Real.sqrt_one]
  · norm_num [linear, clamp01_of_one_le h, Real.rpow_zero, Real.sqrt_zero, Real.sqrt_one]

/-- Boundary behaviour of `in_quad`: constantly 0 left of 0 and constantly 1
right of 1 (the input is clamped first). -/
theorem in_quad_bdry (x : ℝ) : (x ≤ 0 → in_quad x = 0) ∧ (1 ≤ x → in_quad x = 1) := by
  constructor <;> intro h
  · norm_num [in_quad, clamp01_of_nonpos h, Real.rpow_zero, Real.sqrt_zero, Real.sqrt_one]
  · norm_num [in_quad, clamp01_of_one_le h, Real.rpow_zero, Real.sqrt_zero, Real.sqrt_one]

/-- Boundary behaviour of `out_quad`: constantly 0 left of 0 and constantly 1
right of 1 (the input is clamped first). -/
theorem out_quad_bdry (x : ℝ) : (x ≤ 0 → out_quad x = 0) ∧ (1 ≤ x → out_quad x = 1) := by
  constructor <;> intro h
  · norm_num [out_quad, clamp01_of_nonpos h, Real.rpow_zero, Real.sqrt_zero, Real.sqrt_one]
  · norm_num [out_quad, clamp01_of_one_le h, Real.rpow_zero, Real.sqrt_zero, Real.sqrt_one]

/-- Boundary behaviour of `in_out_quad`: constantly 0 left of 0 and constantly 1
right of 1 (the input is clamped first). -/
theorem in_out_quad_bdry (x : ℝ) : (x ≤ 0 → in_out_quad x = 0) ∧ (1 ≤ x → in_out_quad x = 1) := by
  constructor <;> intro h
  · norm_num [in_out_quad, clamp01_of_nonpos h, Real.rpow_zero, Real.sqrt_zero, Real.sqrt_one]
  · norm_num [in_out_quad, clamp01_of_one_le h, Real.rpow_zero, Real.sqrt_zero, Real.sqrt_one]

/-- Boundary behaviour of `in_cubic`: constantly 0 left of 0 and constantly 1
right of 1 (the input is clamped first). -/
theorem in_cubic_bdry (x : ℝ) : (x ≤ 0 → in_cubic x = 0) ∧ (1 ≤ x → in_cubic x = 1) := by
  constructor <;> intro h
  · norm_num [in_cubic, clamp01_of_nonpos h, Real.rpow_zero, Real.sqrt_zero, Real.sqrt_one]
  · norm_num [in_cubic, clamp01_of_one_le h, Real.rpow_zero, Real.sqrt_zero, Real.sqrt_one]

/-- Boundary behaviour of `out_cubic`: constantly 0 left of 0 and constantly 1
right of 1 (the input is clamped first). -/
theorem out_cubic_bdry (x : ℝ) : (x ≤ 0 → out_cubic x = 0) ∧ (1 ≤ x → out_cubic x = 1) := by
  constructor <;> intro h
  · norm_num [out_cubic, clamp01_of_nonpos h, Real.rpow_zero, Real.sqrt_zero, Real.sqrt_one]
  · norm_num [out_cubic, clamp01_of_one_le h, Real.rpow_zero, Real.sqrt_zero, Real.sqrt_one]

/-- Boundary behaviour of `in_out_cubic`: constantly 0 left of 0 and constantly 1
right of 1 (the input is clamped first). -/
theorem in_out_cubic_bdry (x : ℝ) : (x ≤ 0 → in_out_cubic x = 0) ∧ (1 ≤ x → in_out_cubic x = 1) := by
  constructor <;> intro h
  · norm_num [in_out_cubic, clamp01_of_nonpos h, Real.rpow_zero, Real.sqrt_zero, Real.sqrt_one]
  · norm_num [in_out_cubic, clamp01_of_one_le h, Real.rpow_zero, Real.sqrt_zero, Real.sqrt_one]

/-- Boundary behaviour of `in_quart`: constantly 0 left of 0 and constantly 1
right of 1 (the input is clamped first). -/
theorem in_quart_bdry (x : ℝ) : (x ≤ 0 → in_quart x = 0) ∧ (1 ≤ x → in_quart x = 1) := by
  constructor <;> intro h
  · norm_num [in_quart, clamp01_of_nonpos h, Real.rpow_zero, Real.sqrt_zero, Real.sqrt_one]
  · norm_num [in_quart, clamp01_of_one_le h, Real.rpow_zero, Real.sqrt_zero, Real.sqrt_one]

/-- Boundary behaviour of `out_quart`: constantly 0 left of 0 and constantly 1
right of 1 (the input is clamped first). -/
theorem out_quart_bdry (x : ℝ) : (x ≤ 0 → out_quart x = 0) ∧ (1 ≤ x → out_quart x = 1) := by
  constructor <;> intro h
  · norm_num [out_quart, clamp01_of_nonpos h, Real.rpow_zero, Real.sqrt_zero, Real.sqrt_one]
  · norm_num [out_quart, clamp01_of_one_le h, Real.rpow_zero, Real.sqrt_zero, Real.sqrt_one]

/-- Boundary behaviour of `in_out_quart`: constantly 0 left of 0 and constantly 1
right of 1 (the input is clamped first). -/
theorem in_out_quart_bdry (x : ℝ) : (x ≤ 0 → in_out_quart x = 0) ∧ (1 ≤ x → in_out_quart x = 1) := by
  constructor <;> intro h
  · norm_num [in_out_quart, clamp01_of_nonpos h, Real.rpow_zero, Real.sqrt_zero, Real.sqrt_one]
  · norm_num [in_out_quart, clamp01_of_one_le h, Real.rpow_zero, Real.sqrt_zero, Real.sqrt_one]

/-- Boundary behaviour of `in_quint`: constantly 0 left of 0 and constantly 1
right of 1 (the input is clamped first). -/
theorem in_quint_bdry (x : ℝ) : (x ≤ 0 → in_quint x = 0) ∧ (1 ≤ x → in_quint x = 1) := by
  constructor <;> intro h
  · norm_num [in_quint, clamp01_of_nonpos h, Real.rpow_zero, Real.sqrt_zero, Real.sqrt_one]
  · norm_num [in_quint, clamp01_of_one_le h, Real.rpow_zero, Real.sqrt_zero, Real.sqrt_one]

/-- Boundary behaviour of `out_quint`: constantly 0 left of 0 and constantly 1
right of 1 (the input is clamped first). -/
theorem out_quint_bdry (x : ℝ) : (x ≤ 0 → out_quint x = 0) ∧ (1 ≤ x → out_quint x = 1) := by
  constructor <;> intro h
  · norm_num [out_quint, clamp01_of_nonpos h, Real.rpow_zero, Real.sqrt_zero, Real.sqrt_one]
  · norm_num [out_quint, clamp01_of_one_le h, Real.rpow_zero, Real.sqrt_zero, Real.sqrt_one]

/-- Boundary behaviour of `in_out_quint`: constantly 0 left of 0 and constantly 1
right of 1 (the input is clamped first). -/
theorem in_out_quint_bdry (x : ℝ) : (x ≤ 0 → in_out_quint x = 0) ∧ (1 ≤ x → in_out_quint x = 1) := by
  constructor <;> intro h
  · norm_num [in_out_quint, clamp01_of_nonpos h, Real.rpow_zero, Real.sqrt_zero, Real.sqrt_one]
  · norm_num [in_out_quint, clamp01_of_one_le h, Real.rpow_zero, Real.sqrt_zero, Real.sqrt_one]

/-- Boundary behaviour of `in_sine`: constantly 0 left of 0 and constantly 1
right of 1 (the input is clamped first). -/
theorem in_sine_bdry (x : ℝ) : (x ≤ 0 → in_sine x = 0) ∧ (1 ≤ x → in_sine x = 1) := by
  constructor <;> intro h
  · norm_num [in_sine, clamp01_of_nonpos h, Real.rpow_zero, Real.sqrt_zero, Real.sqrt_one]
  · norm_num [in_sine, clamp01_of_one_le h, Real.rpow_zero, Real.sqrt_zero, Real.sqrt_one]

/-- Boundary behaviour of `out_sine`: constantly 0 left of 0 and constantly 1
right of 1 (the input is clamped first). -/
theorem out_sine_bdry (x : ℝ) : (x ≤ 0 → out_sine x = 0) ∧ (1 ≤ x → out_sine x = 1) := by
  constructor <;> intro h
  · norm_num [out_sine, clamp01_of_nonpos h, Real.rpow_zero, Real.sqrt_zero, Real.sqrt_one]
  · norm_num [out_sine, clamp01_of_one_le h, Real.rpow_zero, Real.sqrt_zero, Real.sqrt_one]

/-- Boundary behaviour of `in_out_sine`: constantly 0 left of 0 and constantly 1
right of 1 (the input is clamped first). -/
theorem in_out_sine_bdry (x : ℝ) : (x ≤ 0 → in_out_sine x = 0) ∧ (1 ≤ x → in_out_sine x = 1) := by
  constructor <;> intro h
  · norm_num [in_out_sine, clamp01_of_nonpos h, Real.rpow_zero, Real.sqrt_zero, Real.sqrt_one]
  · norm_num [in_out_sine, clamp01_of_one_le h, Real.rpow_zero, Real.sqrt_zero, Real.sqrt_one]

/-- Boundary behaviour of `in_expo`: constantly 0 left of 0 and constantly 1
right of 1 (the input is clamped first). -/
theorem in_expo_bdry (x : ℝ) : (x ≤ 0 → in_expo x = 0) ∧ (1 ≤ x → in_expo x = 1) := by
  constructor <;> intro h
  · norm_num [in_expo, clamp01_of_nonpos h, Real.rpow_zero, Real.sqrt_zero, Real.sqrt_one]
  · norm_num [in_expo, clamp01_of_one_le h, Real.rpow_zero, Real.sqrt_zero, Real.sqrt_one]

/-- Boundary behaviour of `out_expo`: constantly 0 left of 0 and constantly 1
right of 1 (the input is clamped first). -/
theorem out_expo_bdry (x : ℝ) : (x ≤ 0 → out_expo x = 0) ∧ (1 ≤ x → out_expo x = 1) := by
  constructor <;> intro h
  · norm_num [out_expo, clamp01_of_nonpos h, Real.rpow_zero, Real.sqrt_zero, Real.sqrt_one]
  · norm_num [out_expo, clamp01_of_one_le h, Real.rpow_zero, Real.sqrt_zero, Real.sqrt_one]

/-- Boundary behaviour of `in_out_expo`: constantly 0 left of 0 and constantly 1
right of 1 (the input is clamped first). -/
theorem in_out_expo_bdry (x : ℝ) : (x ≤ 0 → in_out_expo x = 0) ∧ (1 ≤ x → in_out_expo x = 1) := by
  constructor <;> intro h
  · norm_num [in_out_expo, clamp01_of_nonpos h, Real.rpow_zero, Real.sqrt_zero, Real.sqrt_one]
  · norm_num [in_out_expo, clamp01_of_one_le h, Real.rpow_zero, Real.sqrt_zero, Real.sqrt_one]

/-- Boundary behaviour of `in_circ`: constantly 0 left of 0 and constantly 1
right of 1 (the input is clamped first). -/
theorem in_circ_bdry (x : ℝ) : (x ≤ 0 → in_circ x = 0) ∧ (1 ≤ x → in_circ x = 1) := by
  constructor <;> intro h
  · norm_num [in_circ, clamp01_of_nonpos h, Real.rpow_zero, Real.sqrt_zero, Real.sqrt_one]
  · norm_num [in_circ, clamp01_of_one_le h, Real.rpow_zero, Real.sqrt_zero, Real.sqrt_one]

/-- Boundary behaviour of `out_circ`: constantly 0 left of 0 and constantly 1
right of 1 (the input is clamped first). -/
theorem out_circ_bdry (x : ℝ) : (x ≤ 0 → out_circ x = 0) ∧ (1 ≤ x → out_circ x = 1) := by
  constructor <;> intro h
  · norm_num [out_circ, clamp01_of_nonpos h, Real.rpow_zero, Real.sqrt_zero, Real.sqrt_one]
  · norm_num [out_circ, clamp01_of_one_le h, Real.rpow_zero, Real.sqrt_zero, Real.sqrt_one]

/-- Boundary behaviour of `in_out_circ`: constantly 0 left of 0 and constantly 1
right of 1 (the input is clamped first). -/
theorem in_out_circ_bdry (x : ℝ) : (x ≤ 0 → in_out_circ x = 0) ∧ (1 ≤ x → in_out_circ x = 1) := by
  constructor <;> intro h
  · norm_num [in_out_circ, clamp01_of_nonpos h, Real.rpow_zero, Real.sqrt_zero, Real.sqrt_one]
  · norm_num [in_out_circ, clamp01_of_one_le h, Real.rpow_zero, Real.sqrt_zero, Real.sqrt_one]

/-- Boundary behaviour of `in_back`: constantly 0 left of 0 and constantly 1
right of 1 (the input is clamped first). -/
theorem in_back_bdry (x : ℝ) : (x ≤ 0 → in_back x = 0) ∧ (1 ≤ x → in_back x = 1) := by
  constructor <;> intro h
  · norm_num [in_back, clamp01_of_nonpos h, Real.rpow_zero, Real.sqrt_zero, Real.sqrt_one]
  · norm_num [in_back, clamp01_of_one_le h, Real.rpow_zero, Real.sqrt_zero, Real.sqrt_one]

/-- Boundary behaviour of `out_back`: constantly 0 left of 0 and constantly 1
right of 1 (the input is clamped first). -/
theorem out_back_bdry (x : ℝ) : (x ≤ 0 → out_back x = 0) ∧ (1 ≤ x → out_back x = 1) := by
  constructor <;> intro h
  · norm_num [out_back, clamp01_of_nonpos h, Real.rpow_zero, Real.sqrt_zero, Real.sqrt_one]
  · norm_num [out_back, clamp01_of_one_le h, Real.rpow_zero, Real.sqrt_zero, Real.sqrt_one]

/-- Boundary behaviour of `in_out_back`: constantly 0 left of 0 and constantly 1
right of 1 (the input is clamped first). -/
theorem in_out_back_bdry (x : ℝ) : (x ≤ 0 → in_out_back x = 0) ∧ (1 ≤ x → in_out_back x = 1) := by
  constructor <;> intro h
  · norm_num [in_out_back, clamp01_of_nonpos h, Real.rpow_zero, Real.sqrt_zero, Real.sqrt_one]
  · norm_num [in_out_back, clamp01_of_one_le h, Real.rpow_zero, Real.sqrt_zero, Real.sqrt_one]

/-- Boundary behaviour of `in_elastic`: constantly 0 left of 0 and constantly 1
right of 1 (the input is clamped first). -/
theorem in_elastic_bdry (x : ℝ) : (x ≤ 0 → in_elastic x = 0) ∧ (1 ≤ x → in_elastic x = 1) := by
  constructor <;> intro h
  · norm_num [in_elastic, clamp01_of_nonpos h, Real.rpow_zero, Real.sqrt_zero, Real.sqrt_one]
  · norm_num [in_elastic, clamp01_of_one_le h, Real.rpow_zero, Real.sqrt_zero, Real.sqrt_one]

/-- Boundary behaviour of `out_elastic`: constantly 0 left of 0 and constantly 1
right of 1 (the input is clamped first). -/
theorem out_elastic_bdry (x : ℝ) : (x ≤ 0 → out_elastic x = 0) ∧ (1 ≤ x → out_elastic x = 1) := by
  constructor <;> intro h
  · norm_num [out_elastic, clamp01_of_nonpos h, Real.rpow_zero, Real.sqrt_zero, Real.sqrt_one]
  · norm_num [out_elastic, clamp01_of_one_le h, Real.rpow_zero, Real.sqrt_zero, Real.sqrt_one]

/-- Boundary behaviour of `in_out_elastic`: constantly 0 left of 0 and constantly 1
right of 1 (the input is clamped first). -/
theorem in_out_elastic_bdry (x : ℝ) : (x ≤ 0 → in_out_elastic x = 0) ∧ (1 ≤ x → in_out_elastic x = 1) := by
  constructor <;> intro h
  · norm_num [in_out_elastic, clamp01_of_nonpos h, Real.rpow_zero, Real.sqrt_zero, Real.sqrt_one]
  · norm_num [in_out_elastic, clamp01_of_one_le h, Real.rpow_zero, Real.sqrt_zero, Real.sqrt_one]

/-- Boundary behaviour of `in_bounce`: constantly 0 left of 0 and constantly 1
right of 1 (the input is clamped first). -/
theorem in_bounce_bdry (x : ℝ) : (x ≤ 0 → in_bounce x = 0) ∧ (1 ≤ x → in_bounce x = 1) := by
  constructor <;> intro h
  · norm_num [in_bounce, clamp01_of_nonpos h, Real.rpow_zero, Real.sqrt_zero, Real.sqrt_one]
  · norm_num [in_bounce, clamp01_of_one_le h, Real.rpow_zero, Real.sqrt_zero, Real.sqrt_one]

/-- Boundary behaviour of `out_bounce`: constantly 0 left of 0 and constantly 1
right of 1 (the input is clamped first). -/
theorem out_bounce_bdry (x : ℝ) : (x ≤ 0 → out_bounce x = 0) ∧ (1 ≤ x → out_bounce x = 1) := by
  constructor <;> intro h
  · norm_num [out_bounce, clamp01_of_nonpos h, Real.rpow_zero, Real.sqrt_zero, Real.sqrt_one]
  · norm_num [out_bounce, clamp01_of_one_le h, Real.rpow_zero, Real.sqrt_zero, Real.sqrt_one]

/-- Boundary behaviour of `in_out_bounce`: constantly 0 left of 0 and constantly 1
right of 1 (the input is clamped first). -/
theorem in_out_bounce_bdry (x : ℝ) : (x ≤ 0 → in_out_bounce x = 0) ∧ (1 ≤ x → in_out_bounce x = 1) := by
  constructor <;> intro h
  · norm_num [in_out_bounce, clamp01_of_nonpos h, Real.rpow_zero, Real.sqrt_zero, Real.sqrt_one]
  · norm_num [in_out_bounce, clamp01_of_one_le h, Real.rpow_zero, Real.sqrt_zero, Real.sqrt_one]

/-- Every easing curve in the library is 0 left of 0 and 1 right of 1. -/
theorem allEasingCurves_bdry :
    ∀ f ∈ allEasingCurves, ∀ x : ℝ, (x ≤ 0 → f x = 0) ∧ (1 ≤ x → f x = 1) := by
  intro f hf
  fin_cases hf
  exacts [linear_bdry,
    in_quad_bdry,
    out_quad_bdry,
    in_out_quad_bdry,
    in_cubic_bdry,
    out_cubic_bdry,
    in_out_cubic_bdry,
    in_quart_bdry,
    out_quart_bdry,
    in_out_quart_bdry,
    in_quint_bdry,
    out_quint_bdry,
    in_out_quint_bdry,
    in_sine_bdry,
    out_sine_bdry,
    in_out_sine_bdry,
    in_expo_bdry,
    out_expo_bdry,
    in_out_expo_bdry,
    in_circ_bdry,
    out_circ_bdry,
    in_out_circ_bdry,
    in_back_bdry,
    out_back_bdry,
    in_out_back_bdry,
    in_elastic_bdry,
    out_elastic_bdry,
    in_out_elastic_bdry,
    in_bounce_bdry,
    out_bounce_bdry,
    in_out_bounce_bdry]

/-- C5: every easing curve function of interpolate.py satisfies
`curve(0) = 0` and `curve(1) = 1`, and outside the open interval `(0, 1)`
the output stays in `[0, 1]` (the curves clamp their input, so any
overshoot can only happen for inputs strictly between 0 and 1). -/
theorem c5_easing_curve_boundaries :
    (∀ f ∈ allEasingCurves, f 0 = 0 ∧ f 1 = 1) ∧
    (∀ f ∈ allEasingCurves, ∀ x : ℝ, x ≤ 0 ∨ 1 ≤ x → 0 ≤ f x ∧ f x ≤ 1) := by
  refine ⟨fun f hf => ?_, fun f hf x hx => ?_⟩
  · exact ⟨(allEasingCurves_bdry f hf 0).1 le_rfl, (allEasingCurves_bdry f hf 1).2 le_rfl⟩
  · rcases hx with hx | hx
    · rw [(allEasingCurves_bdry f hf x).1 hx]
      exact ⟨le_rfl, zero_le_one⟩
    · rw [(allEasingCurves_bdry f hf x).2 hx]
      exact ⟨zero_le_one, le_rfl⟩

/-- Witness for C5 at the curve `linear` and the out-of-range input 2. -/
theorem c5_easing_curve_boundaries_witness :
    (0 : ℝ) ≤ linear 2 ∧ linear (2 : ℝ) ≤ 1 :=
  c5_easing_curve_boundaries.2 linear (List.Mem.head _) 2 (Or.inr one_le_two)

/-- The vacuous asserts in `to_arr` never fire: conversion succeeds on
every anchor value. -/
theorem to_arr_eq_some (a : Anchor) : ∃ v, a.to_arr = some v := by
  have h1 : (Anchor.BOTTOM.land Anchor.TOP).truthy = false := rfl
  have h2 : (Anchor.LEFT.land Anchor.RIGHT).truthy = false := rfl
  simp only [Anchor.to_arr, h1, h2, Bool.false_eq_true, if_false]
  exact ⟨_, rfl⟩

/-- The packing loop never fails and pairs the children, in order, with
their computed relative locations. -/
theorem packLoop_spec (c : Container) (i i_0 : ℕ) (cs : List RChild) :
    ∀ rel, ∃ locs, packLoop c i i_0 rel cs = some locs ∧ locs.map Prod.fst = cs := by
  induction cs with
  | nil => exact fun rel => ⟨[], rfl, rfl⟩
  | cons child rest ih =>
    intro rel
    obtain ⟨v, hv⟩ := to_arr_eq_some child.anchor
    obtain ⟨locs, hl, hm⟩ := ih (vset (vset rel i (vget rel i + c.spacing)) i
      (vget (vset rel i (vget rel i + c.spacing)) i + vget child.size i + c.spacing))
    refine ⟨(child, ?_) :: locs, ?_, ?_⟩
    · exact (vadd (vset rel i (vget rel i + c.spacing))
        (vset (vmul (vset v i 0) c.size) i_0
          (vget (vmul (vset v i 0) c.size) i_0 -
            (vget (vset v i 0) i_0 * 2 - 1) * (c.spacing + vget child.size i_0 / 2))))
    · simp [packLoop, hv, hl]
    · simp [hm]

/-- Mapping only the second components of location pairs preserves the
child components. -/
theorem map_fst_map_pair {α β γ : Type} (l : List (α × β)) (g : α × β → γ) :
    (l.map fun cl => (cl.1, g cl)).map Prod.fst = l.map Prod.fst := by
  induction l with
  | nil => rfl
  | cons a t ih => simp [ih]

/-- The synthesized anchor lookup in the packed branch, written out:
START maps to the leading anchor of the primary axis (TOP for HORIZONTAL,
LEFT for VERTICAL), CENTER to the empty CENTER anchor, END to the trailing
anchor (BOTTOM / RIGHT). -/
theorem new_anchor_eq (c : Container) (hp : c.packing ≠ Packing.NONE) :
    c.new_anchor = some (if c.direction = Direction.HORIZONTAL then
      (if c.packing = Packing.START then Anchor.TOP
       else if c.packing = Packing.CENTER then Anchor.CENTER else Anchor.BOTTOM)
    else
      (if c.packing = Packing.START then Anchor.LEFT
       else if c.packing = Packing.CENTER then Anchor.CENTER else Anchor.RIGHT)) := by
  unfold Container.new_anchor
  rcases hd : c.direction <;> rcases hpk : c.packing <;> simp_all

/-- The final render loop renders every child with exactly the synthesized
`new_anchor` and leaves each child's own anchor field restored. -/
theorem renderLoop_spec (topLeft : ℚ × ℚ) (na : Anchor)
    (locs : List (RChild × (ℚ × ℚ))) :
    (renderLoop topLeft na locs).2 = List.replicate locs.length na ∧
    (renderLoop topLeft na locs).1.map (fun ch => ch.anchor)
      = locs.map fun cl => cl.1.anchor := by
  induction locs with
  | nil => exact ⟨rfl, rfl⟩
  | cons cl rest ih =>
    obtain ⟨child, loc⟩ := cl
    simp [renderLoop, ih.1, ih.2, List.replicate_succ]

/-- The CENTER post-pass never fails and shifts locations without touching
the child components. -/
theorem centerAdjust_spec (c : Container) (i_0 : ℕ)
    (locs : List (RChild × (ℚ × ℚ))) (hc : c.children ≠ [])
    (hfst : locs.map Prod.fst = c.children) :
    ∃ locs2, centerAdjust c i_0 locs = some locs2 ∧
      locs2.map Prod.fst = c.children := by
  cases locs with
  | nil =>
    rw [← hfst] at hc
    simp at hc
  | cons l0 ltl =>
    have h1 : c.children.head? = some l0.1 := by
      rw [← hfst]
      rfl
    obtain ⟨lastc, h2⟩ : ∃ lastc, c.children.getLast? = some lastc :=
      ⟨c.children.getLast hc, List.getLast?_eq_getLast _ hc⟩
    have h3 : (l0 :: ltl).find? (fun cl => cl.1 == l0.1) = some l0 :=
      List.find?_cons_of_pos _ (by simp)
    have hmem : lastc ∈ c.children := by
      have he : c.children.getLast hc = lastc :=
        Option.some.inj ((List.getLast?_eq_getLast c.children hc).symm.trans h2)
      rw [← he]
      exact List.getLast_mem hc
    rw [← hfst] at hmem
    obtain ⟨entry, hent, heq⟩ := List.mem_map.mp hmem
    obtain ⟨entry0, hfind⟩ : ∃ e, (l0 :: ltl).find? (fun cl => cl.1 == lastc) = some e := by
      have hs : ((l0 :: ltl).find? fun cl => cl.1 == lastc).isSome := by
        rw [List.find?_isSome]
        exact ⟨entry, hent, by simp [heq]⟩
      exact Option.isSome_iff_exists.mp hs
    have hca : centerAdjust c i_0 (l0 :: ltl) = some ((l0 :: ltl).map fun cl =>
        (cl.1, vadd cl.2
          (vset (vsmul (1/2) (vsub c.size (vsub (vadd entry0.2 lastc.size) l0.2))) i_0 0))) := by
      simp [centerAdjust, h1, h2, h3, hfind]
    refine ⟨_, hca, ?_⟩
    rw [map_fst_map_pair]
    exact hfst

/-- C8: a packed-mode `Container.render` (packing START, CENTER or END,
children nonempty) renders every child with the synthesized anchor
determined by packing and direction (START maps to the leading anchor of
the primary axis, CENTER to the center anchor, END to the trailing
anchor), and after each child's render call the child's own anchor field
is restored to its pre-render value. -/
theorem c8_packed_anchor_synthesis_restore (c : Container) (hp : c.packing ≠ Packing.NONE)
    (hc : c.children ≠ []) :
    ∃ out, c.render = some out ∧
      out.2 = List.replicate c.children.length
        (if c.direction = Direction.HORIZONTAL then
          (if c.packing = Packing.START then Anchor.TOP
           else if c.packing = Packing.CENTER then Anchor.CENTER else Anchor.BOTTOM)
         else
          (if c.packing = Packing.START then Anchor.LEFT
           else if c.packing = Packing.CENTER then Anchor.CENTER else Anchor.RIGHT)) ∧
      out.1.map (fun ch => ch.anchor) = c.children.map fun ch => ch.anchor := by
  have hcond : ¬(c.packing = Packing.NONE ∨ c.children = []) := by
    push_neg
    exact ⟨hp, hc⟩
  obtain ⟨locs, hlocs, hfst⟩ := packLoop_spec c
    (if c.direction = Direction.HORIZONTAL then 1 else 0)
    (1 - if c.direction = Direction.HORIZONTAL then 1 else 0)
    c.children
    (vset (0, 0) (if c.direction = Direction.HORIZONTAL then 1 else 0)
      (vget (0, 0) (if c.direction = Direction.HORIZONTAL then 1 else 0) - c.spacing))
  have hna := new_anchor_eq c hp
  obtain ⟨locs2, hstep2, hfst2⟩ : ∃ l2,
      (if c.packing = Packing.CENTER then
        centerAdjust c (1 - if c.direction = Direction.HORIZONTAL then 1 else 0) locs
      else some locs) = some l2 ∧ l2.map Prod.fst = c.children := by
    by_cases hcen : c.packing = Packing.CENTER
    · rw [if_pos hcen]
      exact centerAdjust_spec c _ locs hc hfst
    · rw [if_neg hcen]
      exact ⟨locs, rfl, hfst⟩
  obtain ⟨ta, hta⟩ := to_arr_eq_some c.anchor
  have htl : c.get_top_left = some (vsub c.position (vmul c.size ta)) := by
    unfold Container.get_top_left
    rw [hta]
    rfl
  have hfstF : (if c.packing = Packing.END then
      locs2.map (fun cl => (cl.1, vsub c.size cl.2)) else locs2).map Prod.fst
      = c.children := by
    by_cases hend : c.packing = Packing.END
    · rw [if_pos hend, map_fst_map_pair]
      exact hfst2
    · rw [if_neg hend]
      exact hfst2
  have hrender : c.render = some (renderLoop (vsub c.position (vmul c.size ta))
      (if c.direction = Direction.HORIZONTAL then
        (if c.packing = Packing.START then Anchor.TOP
         else if c.packing = Packing.CENTER then Anchor.CENTER else Anchor.BOTTOM)
       else
        (if c.packing = Packing.START then Anchor.LEFT
         else if c.packing = Packing.CENTER then Anchor.CENTER else Anchor.RIGHT))
      (if c.packing = Packing.END then
        locs2.map (fun cl => (cl.1, vsub c.size cl.2)) else locs2)) := by
    unfold Container.render
    rw [if_neg hcond]
    by_cases hcen : c.packing = Packing.CENTER
    · have hca : centerAdjust c (1 - if c.direction = Direction.HORIZONTAL then 1 else 0)
          locs = some locs2 := by
        rw [if_pos hcen] at hstep2
        exact hstep2
      simp only [Option.bind_eq_bind, hlocs, hna, Option.some_bind, if_pos hcen, hca, htl]
    · have hsome : locs2 = locs := by
        rw [if_neg hcen] at hstep2
        exact (Option.some.inj hstep2).symm
      simp only [Option.bind_eq_bind, hlocs, hna, Option.some_bind, if_neg hcen, hsome, htl]
  have hspec := renderLoop_spec (vsub c.position (vmul c.size ta))
    (if c.direction = Direction.HORIZONTAL then
      (if c.packing = Packing.START then Anchor.TOP
       else if c.packing = Packing.CENTER then Anchor.CENTER else Anchor.BOTTOM)
     else
      (if c.packing = Packing.START then Anchor.LEFT
       else if c.packing = Packing.CENTER then Anchor.CENTER else Anchor.RIGHT))
    (if c.packing = Packing.END then
      locs2.map (fun cl => (cl.1, vsub c.size cl.2)) else locs2)
  refine ⟨_, hrender, ?_, ?_⟩
  · rw [hspec.1]
    have hlen : (if c.packing = Packing.END then
        locs2.map (fun cl => (cl.1, vsub c.size cl.2)) else locs2).length
        = c.children.length := by
      rw [← hfstF, List.length_map]
    rw [hlen]
  · rw [hspec.2, ← hfstF, List.map_map]
    rfl

/-- Witness for C8 at a concrete one-child START-packed container. -/
theorem c8_packed_anchor_witness :
    ∃ out, packedContainer.render = some out ∧
      out.2 = List.replicate packedContainer.children.length
        (if packedContainer.direction = Direction.HORIZONTAL then
          (if packedContainer.packing = Packing.START then Anchor.TOP
           else if packedContainer.packing = Packing.CENTER then Anchor.CENTER
           else Anchor.BOTTOM)
         else
          (if packedContainer.packing = Packing.START then Anchor.LEFT
           else if packedContainer.packing = Packing.CENTER then Anchor.CENTER
           else Anchor.RIGHT)) ∧
      out.1.map (fun ch => ch.anchor)
        = packedContainer.children.map fun ch => ch.anchor :=
  c8_packed_anchor_synthesis_restore packedContainer (by decide) (by decide)


end Shortcake
